import Mathlib

set_option maxRecDepth 4000

/-!
Shallow embedding of the Wind Resource Statistical Analysis Engine from
`backend/src/services/wind_analysis.py` (class `WindAnalysis`), together with
theorems checking the natural-language specification against it.

Modelling conventions:
* a raw sample is `Option ℚ`: `none` models the NaN (missing) sentinel,
  `some v` a finite float value; exact rationals stand in for IEEE floats;
* a Python dict returned by a component becomes a structure whose fields are
  the dict keys; a key that is present only on some paths becomes an `Option`
  field (`none` = key absent);
* a component that returns its one-key error dict becomes `Except String result`;
* `np.std` is the population standard deviation `Real.sqrt` of the mean of
  squared deviations, so values involving it live in `ℝ`;
* the scipy Weibull maximum-likelihood fit (an external numerical routine,
  lines 60-101 of the source) is abstracted as a function parameter
  `weibull_mle`; a Python exception escaping it is its `.error` case.
-/

/-- Raw wind-speed sample: `none` is the NaN sentinel of the source. -/
abbrev RawSample := Option ℚ

/-- Cleaning used by statistics, power density, probabilities and capacity
factor: drop NaN, keep values `>= 0` (source lines 27-28 etc.). -/
def cleanNonneg (ws : List RawSample) : List ℚ :=
  (ws.filterMap id).filter (fun v => decide (0 ≤ v))

/-- Cleaning used by the Weibull fit and turbulence: drop NaN, keep values
strictly `> 0` (source lines 54-55, 109-110). -/
def cleanPos (ws : List RawSample) : List ℚ :=
  (ws.filterMap id).filter (fun v => decide (0 < v))

/-- Arithmetic mean, `np.mean` (sum divided by length; unused on `[]`). -/
def qmean (l : List ℚ) : ℚ := l.sum / (l.length : ℚ)

/-- Population variance, the quantity under the square root in `np.std`. -/
def qvariance (l : List ℚ) : ℚ := qmean (l.map (fun x => (x - qmean l) ^ 2))

/-- Population standard deviation, `np.std`. -/
noncomputable def qstd (l : List ℚ) : ℝ := Real.sqrt ((qvariance l : ℚ) : ℝ)

/-- Ascending sort of a rational list (`sorted` / `np.sort`). -/
def sortQ (l : List ℚ) : List ℚ := List.insertionSort (· ≤ ·) l

/-- Linear-interpolation percentile, `np.percentile` with the default
`linear` method. -/
def percentileQ (l : List ℚ) (q : ℚ) : ℚ :=
  let s := sortQ l
  let pos : ℚ := ((s.length : ℚ) - 1) * q / 100
  let f : ℕ := Int.toNat ⌊pos⌋
  match s[f]?, s[f + 1]? with
  | some a, some b => a + (b - a) * (pos - (f : ℚ))
  | some a, none => a
  | none, _ => 0

/-- Median, `np.median` (middle element, or mean of the two middles). -/
def medianQ (l : List ℚ) : ℚ :=
  let s := sortQ l
  let n := s.length
  if n % 2 = 1 then s.getD (n / 2) 0
  else (s.getD (n / 2 - 1) 0 + s.getD (n / 2) 0) / 2

/-- Instance attribute `self.air_density` (source line 17). -/
def air_density : ℚ := 1.225

/-- Instance attribute `self.cut_in_speed`, 3.0 m/s (source line 18). -/
def cut_in_speed : ℚ := 3

/-- Instance attribute `self.cut_out_speed`, 25.0 m/s (source line 19). -/
def cut_out_speed : ℚ := 25

/-- Instance attribute `self.rated_speed`, 12.0 m/s (source line 20). -/
def rated_speed : ℚ := 12

/-- Result dict of `calculate_wind_statistics` (source lines 33-45). -/
structure StatsResult where
  mean : ℚ
  median : ℚ
  std : ℝ
  min : ℚ
  max : ℚ
  percentile_25 : ℚ
  percentile_75 : ℚ
  percentile_90 : ℚ
  percentile_95 : ℚ
  count : ℕ
  data_availability : ℚ

/-- Embedding of `calculate_wind_statistics` (source lines 22-47). -/
noncomputable def calculate_wind_statistics (wind_speeds : List RawSample) :
    Except String StatsResult :=
  match cleanNonneg wind_speeds with
  | [] => .error "No hay datos válidos de velocidad del viento"
  | v :: vs =>
    .ok { mean := qmean (v :: vs)
          median := medianQ (v :: vs)
          std := qstd (v :: vs)
          min := vs.foldl Min.min v
          max := vs.foldl Max.max v
          percentile_25 := percentileQ (v :: vs) 25
          percentile_75 := percentileQ (v :: vs) 75
          percentile_90 := percentileQ (v :: vs) 90
          percentile_95 := percentileQ (v :: vs) 95
          count := (v :: vs).length
          data_availability := ((v :: vs).length : ℚ) / (wind_speeds.length : ℚ) * 100 }

/-- Error cases of `fit_weibull_distribution`: the explicit insufficient-data
dict of source line 58, and the caught exception of source lines 100-101. -/
inductive WeibullErr where
  | insufficientData
  | fitError (msg : String)
deriving DecidableEq

/-- Embedding of `fit_weibull_distribution` (source lines 49-101).  The body
of the `try` block — the scipy maximum-likelihood fit and the statistics
derived from it — is an external numerical routine and is abstracted as the
parameter `weibull_mle`; an exception escaping it is its `.error` case. -/
def fit_weibull_distribution {α : Type} (weibull_mle : List ℚ → Except String α)
    (wind_speeds : List RawSample) : Except WeibullErr α :=
  let valid_speeds := cleanPos wind_speeds
  if valid_speeds.length < 10 then .error .insufficientData
  else
    match weibull_mle valid_speeds with
    | .ok p => .ok p
    | .error m => .error (.fitError m)

/-- Embedding of `_classify_turbulence` (source lines 152-165). -/
noncomputable def classify_turbulence (ti : ℝ) : String :=
  if ti < 0.10 then "Muy baja"
  else if ti < 0.15 then "Baja"
  else if ti < 0.20 then "Media"
  else if ti < 0.25 then "Alta"
  else "Muy alta"

/-- Entry of the dict returned by `calculate_turbulence_intensity` for one
key.  The `overall` entry of the source (lines 123-128) has no `count` key,
so `count` is an `Option`, `none` meaning the key is absent. -/
structure TIEntry where
  turbulence_intensity : ℝ
  mean_speed : ℚ
  std_speed : ℝ
  count : Option ℕ
  classification : String

/-- Turbulence intensity of a cleaned list: std over mean when the mean is
positive, else 0 (source lines 121, 140). -/
noncomputable def tiOf (l : List ℚ) : ℝ :=
  if 0 < qmean l then qstd l / ((qmean l : ℚ) : ℝ) else 0

/-- Fixed speed bins of `calculate_turbulence_intensity` (source line 131). -/
def speedBins : List (ℕ × ℕ) := [(3, 6), (6, 9), (9, 12), (12, 15), (15, 25)]

/-- Dict key used for one speed bin (source line 142). -/
def binLabel (b : ℕ × ℕ) : String := toString b.1 ++ "-" ++ toString b.2 ++ "m/s"

/-- Samples of a cleaned series that fall in one speed bin (source line 134). -/
def binSpeeds (valid : List ℚ) (b : ℕ × ℕ) : List ℚ :=
  valid.filter (fun v => decide ((b.1 : ℚ) ≤ v) && decide (v < (b.2 : ℚ)))

/-- Dict value built for one qualifying speed bin (source lines 142-148). -/
noncomputable def binTIEntry (valid : List ℚ) (b : ℕ × ℕ) : TIEntry :=
  { turbulence_intensity := tiOf (binSpeeds valid b)
    mean_speed := qmean (binSpeeds valid b)
    std_speed := qstd (binSpeeds valid b)
    count := some (binSpeeds valid b).length
    classification := classify_turbulence (tiOf (binSpeeds valid b)) }

/-- Entry contributed by one speed bin: present exactly when the bin holds
more than 5 samples (source lines 137-148). -/
noncomputable def binEntry (valid : List ℚ) (b : ℕ × ℕ) : Option (String × TIEntry) :=
  if 5 < (binSpeeds valid b).length then some (binLabel b, binTIEntry valid b)
  else none

/-- Embedding of `calculate_turbulence_intensity` (source lines 103-150).
The `time_resolution_hours` parameter of the source is unused there and is
omitted.  The result dict becomes an association list in insertion order:
the `overall` entry followed by the qualifying bins. -/
noncomputable def calculate_turbulence_intensity (wind_speeds : List RawSample) :
    Except String (List (String × TIEntry)) :=
  let valid_speeds := cleanPos wind_speeds
  if valid_speeds.length < 10 then
    .error "Datos insuficientes para cálculo de turbulencia"
  else
    .ok (("overall",
      { turbulence_intensity := tiOf valid_speeds
        mean_speed := qmean valid_speeds
        std_speed := qstd valid_speeds
        count := none
        classification := classify_turbulence (tiOf valid_speeds) }) ::
      speedBins.filterMap (binEntry valid_speeds))

/-- Embedding of `_classify_power_density` (source lines 196-211). -/
def classify_power_density (power_density : ℚ) : String :=
  if power_density < 100 then "Pobre"
  else if power_density < 200 then "Marginal"
  else if power_density < 300 then "Moderado"
  else if power_density < 400 then "Bueno"
  else if power_density < 500 then "Excelente"
  else "Excepcional"

/-- Result dict of `calculate_power_density` (source lines 185-192). -/
structure PowerDensityResult where
  mean_power_density : ℚ
  median_power_density : ℚ
  max_power_density : ℚ
  total_energy_density : ℚ
  air_density_used : ℚ
  classification : String
deriving DecidableEq

/-- Embedding of `calculate_power_density` (source lines 167-194); the
optional argument is `none` when the caller passed no override. -/
def calculate_power_density (wind_speeds : List RawSample)
    (air_density_arg : Option ℚ) : Except String PowerDensityResult :=
  let ρ := air_density_arg.getD air_density
  match cleanNonneg wind_speeds with
  | [] => .error "No hay datos válidos de velocidad del viento"
  | v :: vs =>
    let power_density := (v :: vs).map (fun s => 0.5 * ρ * s ^ 3)
    .ok { mean_power_density := qmean power_density
          median_power_density := medianQ power_density
          max_power_density := (vs.map (fun s => 0.5 * ρ * s ^ 3)).foldl Max.max (0.5 * ρ * v ^ 3)
          total_energy_density := power_density.sum / (power_density.length : ℚ)
          air_density_used := ρ
          classification := classify_power_density (qmean power_density) }

/-- Result dict of `calculate_wind_probabilities` (source lines 226-235). -/
structure ProbResult where
  prob_above_8_ms : ℚ
  prob_above_cut_in : ℚ
  prob_operational : ℚ
  prob_above_rated : ℚ
  prob_calm : ℚ
  prob_strong : ℚ
  prob_extreme : ℚ
deriving DecidableEq

/-- Percentage of samples of `valid` satisfying a predicate
(`np.sum(mask) / total_count * 100`). -/
def pct (valid : List ℚ) (p : ℚ → Bool) : ℚ :=
  ((valid.countP p : ℕ) : ℚ) / (valid.length : ℚ) * 100

/-- Embedding of `calculate_wind_probabilities` (source lines 213-237). -/
def calculate_wind_probabilities (wind_speeds : List RawSample) :
    Except String ProbResult :=
  let valid_speeds := cleanNonneg wind_speeds
  if valid_speeds.length = 0 then .error "No hay datos válidos de velocidad del viento"
  else
    .ok { prob_above_8_ms := pct valid_speeds (fun v => decide (8 < v))
          prob_above_cut_in := pct valid_speeds (fun v => decide (cut_in_speed < v))
          prob_operational := pct valid_speeds
            (fun v => decide (cut_in_speed ≤ v) && decide (v ≤ cut_out_speed))
          prob_above_rated := pct valid_speeds (fun v => decide (rated_speed < v))
          prob_calm := pct valid_speeds (fun v => decide (v < 2))
          prob_strong := pct valid_speeds (fun v => decide (15 < v))
          prob_extreme := pct valid_speeds (fun v => decide (20 < v)) }

/-- Embedding of `_default_power_curve` (source lines 276-288): the dict in
insertion order as an association list (speed in m/s, power in kW). -/
def _default_power_curve : List (ℚ × ℚ) :=
  [(0, 0), (1, 0), (2, 0), (3, 0),
   (4, 50), (5, 150), (6, 300), (7, 500),
   (8, 750), (9, 1000), (10, 1300), (11, 1600),
   (12, 1850), (13, 1950), (14, 2000), (15, 2000),
   (16, 2000), (17, 2000), (18, 2000), (19, 2000),
   (20, 2000), (21, 2000), (22, 2000), (23, 2000),
   (24, 2000), (25, 0)]

/-- Dict access `power_curve[x]`: value of the first pair with the given key.
The default 0 is never reached for keys taken from the curve itself. -/
def curveVal (power_curve : List (ℚ × ℚ)) (s : ℚ) : ℚ :=
  match power_curve.find? (fun p => decide (p.1 = s)) with
  | some p => p.2
  | none => 0

/-- The sorted key list `speeds = sorted(power_curve.keys())` of
`_interpolate_power` (source line 294). -/
def sortedSpeeds (power_curve : List (ℚ × ℚ)) : List ℚ :=
  List.insertionSort (· ≤ ·) (power_curve.map Prod.fst)

/-- The linear-interpolation loop of `_interpolate_power` (source lines
302-306): scan consecutive key pairs, return the interpolated power at the
first bracketing pair; `none` models falling through to the trailing
`return 0` of source line 308. -/
def interpLoop (speed : ℚ) (power_curve : List (ℚ × ℚ)) : List ℚ → Option ℚ
  | x1 :: x2 :: rest =>
    if x1 ≤ speed ∧ speed ≤ x2 then
      some (curveVal power_curve x1 +
        (curveVal power_curve x2 - curveVal power_curve x1) * (speed - x1) / (x2 - x1))
    else interpLoop speed power_curve (x2 :: rest)
  | _ => none

/-- Embedding of `_interpolate_power` (source lines 290-308).  `none` models
the IndexError the source raises on an empty curve (`speeds[0]` of an empty
list); otherwise the result is the boundary clamp or the loop value, with the
trailing `return 0` reached when the loop finds no bracketing pair. -/
def _interpolate_power (speed : ℚ) (power_curve : List (ℚ × ℚ)) : Option ℚ :=
  match sortedSpeeds power_curve with
  | [] => none
  | s0 :: rest =>
    if speed ≤ s0 then some (curveVal power_curve s0)
    else if (s0 :: rest).getLastD 0 ≤ speed then
      some (curveVal power_curve ((s0 :: rest).getLastD 0))
    else some ((interpLoop speed power_curve (s0 :: rest)).getD 0)

/-- Embedding of `_classify_capacity_factor` (source lines 310-323). -/
def classify_capacity_factor (cf : ℚ) : String :=
  if cf < 20 then "Pobre"
  else if cf < 30 then "Marginal"
  else if cf < 40 then "Bueno"
  else if cf < 50 then "Muy bueno"
  else "Excelente"

/-- Result dict of `calculate_capacity_factor` (source lines 266-272). -/
structure CapacityFactorResult where
  capacity_factor : ℚ
  mean_power_output : ℚ
  rated_power : ℚ
  annual_energy_production : ℚ
  classification : String
deriving DecidableEq

/-- Embedding of `calculate_capacity_factor` (source lines 239-274); the
curve argument is `none` when the caller passed no custom curve.  An empty
custom curve makes the source raise IndexError inside `_interpolate_power`,
modelled as the corresponding error value. -/
def calculate_capacity_factor (wind_speeds : List RawSample)
    (turbine_power_curve : Option (List (ℚ × ℚ))) : Except String CapacityFactorResult :=
  let valid_speeds := cleanNonneg wind_speeds
  if valid_speeds.length = 0 then .error "No hay datos válidos de velocidad del viento"
  else
    match turbine_power_curve.getD _default_power_curve with
    | [] => .error "list index out of range"
    | c0 :: cs =>
      let power_output := valid_speeds.map
        (fun s => (_interpolate_power s (c0 :: cs)).getD 0)
      let rated_power := (cs.map Prod.snd).foldl Max.max c0.2
      let capacity_factor := qmean power_output / rated_power * 100
      .ok { capacity_factor := capacity_factor
            mean_power_output := qmean power_output
            rated_power := rated_power
            annual_energy_production := qmean power_output * 8760
            classification := classify_capacity_factor capacity_factor }

/-- The `key_metrics` dict of `_overall_wind_assessment` (source lines
374-380). -/
structure KeyMetrics where
  mean_wind_speed : ℚ
  power_density : ℚ
  capacity_factor : ℚ
  turbulence_intensity : ℝ
  operational_probability : ℚ

/-- The assessment dict of `_overall_wind_assessment` (source lines 359-364).
Keys added only on some paths (`viability_message`, `error`) and the
initially empty `key_metrics` are `Option` fields, `none` meaning absent or
still empty. -/
structure Assessment where
  viability_score : ℤ
  viability_level : String
  viability_message : Option String
  recommendations : List String
  key_metrics : Option KeyMetrics
  error : Option String

/-- Mean-wind-speed score tier of the source (lines 386-391). -/
def speedScore (mean_speed : ℚ) : ℤ :=
  if mean_speed ≥ 8 then 30 else if mean_speed ≥ 6 then 20
  else if mean_speed ≥ 4 then 10 else 0

/-- Power-density score tier of the source (lines 394-401). -/
def powerDensityScore (power_density : ℚ) : ℤ :=
  if power_density ≥ 400 then 25 else if power_density ≥ 300 then 20
  else if power_density ≥ 200 then 15 else if power_density ≥ 100 then 10 else 0

/-- Capacity-factor score tier of the source (lines 404-411). -/
def capacityScore (capacity_factor : ℚ) : ℤ :=
  if capacity_factor ≥ 40 then 25 else if capacity_factor ≥ 30 then 20
  else if capacity_factor ≥ 20 then 15 else if capacity_factor ≥ 15 then 10 else 0

/-- Turbulence score tier of the source (lines 414-419); note the gap
(0.20, 0.25] contributing 0. -/
noncomputable def turbulenceScore (ti : ℝ) : ℤ :=
  if ti ≤ 0.15 then 10 else if ti ≤ 0.20 then 5 else if ti > 0.25 then -5 else 0

/-- Operational-probability score tier of the source (lines 422-427). -/
def operationalScore (prob_operational : ℚ) : ℤ :=
  if prob_operational ≥ 80 then 10 else if prob_operational ≥ 70 then 8
  else if prob_operational ≥ 60 then 5 else 0

/-- Dict access `component_result[key]` inside the `try` block of
`_overall_wind_assessment`: if the component returned its error dict, the
metric key is missing and a KeyError carrying the key name is raised. -/
def getField {α : Type} (r : Except String α) (key : String) : Except String α :=
  match r with
  | .ok a => .ok a
  | .error _ => .error key

/-- The assessment returned when the `except` branch of
`_overall_wind_assessment` runs (source lines 462-463): every field keeps its
initialization value and the `error` key is added. -/
def assessmentError (e : String) : Assessment :=
  { viability_score := 0
    viability_level := "Bajo"
    viability_message := none
    recommendations := []
    key_metrics := none
    error := some ("Error en evaluación general: " ++ e) }

/-- Embedding of `_overall_wind_assessment` (source lines 355-465).  The
`analysis_results` dict is passed as one argument per component result, in
the order the source stores them; `weibull_analysis` is present but — as in
the source — never read.  Metric extraction follows the source order (mean,
power density, capacity factor, overall turbulence, operational
probability); the first failing dict access aborts into the `except`
branch. -/
noncomputable def _overall_wind_assessment {α : Type}
    (basic_statistics : Except String StatsResult)
    (weibull_analysis : Except WeibullErr α)
    (turbulence_analysis : Except String (List (String × TIEntry)))
    (power_density : Except String PowerDensityResult)
    (wind_probabilities : Except String ProbResult)
    (capacity_factor : Except String CapacityFactorResult) : Assessment :=
  match getField basic_statistics "mean", getField power_density "mean_power_density",
        getField capacity_factor "capacity_factor", getField turbulence_analysis "overall",
        getField wind_probabilities "prob_operational" with
  | .error e, _, _, _, _ => assessmentError e
  | _, .error e, _, _, _ => assessmentError e
  | _, _, .error e, _, _ => assessmentError e
  | _, _, _, .error e, _ => assessmentError e
  | .ok s, .ok p, .ok c, .ok t, probs =>
    match t.lookup "overall" with
    | none => assessmentError "turbulence_intensity"
    | some o =>
      match probs with
      | .error e => assessmentError e
      | .ok pr =>
        let score : ℤ := speedScore s.mean + powerDensityScore p.mean_power_density +
          capacityScore c.capacity_factor + turbulenceScore o.turbulence_intensity +
          operationalScore pr.prob_operational
        { viability_score := max 0 (min 100 score)
          viability_level :=
            if score ≥ 75 then "Alto" else if score ≥ 50 then "Moderado" else "Bajo"
          viability_message := some
            (if score ≥ 75 then "✅ Alta viabilidad para generación eólica"
             else if score ≥ 50 then "⚠️ Viabilidad moderada"
             else "❌ No viable (bajo recurso o alta turbulencia)")
          recommendations :=
            (if s.mean < 6 then
              ["Velocidad media del viento baja. Considerar torres más altas."] else []) ++
            (if o.turbulence_intensity > 0.20 then
              ["Alta turbulencia detectada. Evaluar micrositing detallado."] else []) ++
            (if c.capacity_factor < 25 then
              ["Factor de capacidad bajo. Evaluar aerogeneradores de baja velocidad."] else []) ++
            (if p.mean_power_density < 200 then
              ["Densidad de potencia marginal. Considerar otras ubicaciones."] else []) ++
            (if pr.prob_operational < 70 then
              ["Baja probabilidad operacional. Revisar condiciones del sitio."] else [])
          key_metrics := some
            { mean_wind_speed := s.mean
              power_density := p.mean_power_density
              capacity_factor := c.capacity_factor
              turbulence_intensity := o.turbulence_intensity
              operational_probability := pr.prob_operational }
          error := none }

/-- The `results` dict of `comprehensive_wind_analysis` (source lines
330-351). -/
structure AnalysisReport (α : Type) where
  basic_statistics : Except String StatsResult
  weibull_analysis : Except WeibullErr α
  turbulence_analysis : Except String (List (String × TIEntry))
  power_density : Except String PowerDensityResult
  wind_probabilities : Except String ProbResult
  capacity_factor : Except String CapacityFactorResult
  overall_assessment : Assessment

/-- Embedding of `comprehensive_wind_analysis` (source lines 325-353); the
capacity factor uses the default curve and turbulence its default time
resolution, as in the source. -/
noncomputable def comprehensive_wind_analysis {α : Type}
    (weibull_mle : List ℚ → Except String α) (wind_speeds : List RawSample)
    (air_density_arg : Option ℚ) : AnalysisReport α :=
  let bs := calculate_wind_statistics wind_speeds
  let wb := fit_weibull_distribution weibull_mle wind_speeds
  let tb := calculate_turbulence_intensity wind_speeds
  let pd := calculate_power_density wind_speeds air_density_arg
  let pr := calculate_wind_probabilities wind_speeds
  let cf := calculate_capacity_factor wind_speeds none
  { basic_statistics := bs
    weibull_analysis := wb
    turbulence_analysis := tb
    power_density := pd
    wind_probabilities := pr
    capacity_factor := cf
    overall_assessment := _overall_wind_assessment bs wb tb pd pr cf }

/-! Claim theorems. -/

/-- C7: on the series [2,4,6,8,10,12,14,16,18,20,22,24], the probability
profile reports prob_calm = 0% (the calm test is strictly below 2.0, so the
value 2 is not calm) and prob_operational = 11/12 × 100% (the operational
test is inclusive at the cut-in 3.0 and the cut-out 25.0). -/
theorem probability_profile_concrete :
    (calculate_wind_probabilities
      [some 2, some 4, some 6, some 8, some 10, some 12,
       some 14, some 16, some 18, some 20, some 22, some 24]).map
      ProbResult.prob_calm = .ok 0 ∧
    (calculate_wind_probabilities
      [some 2, some 4, some 6, some 8, some 10, some 12,
       some 14, some 16, some 18, some 20, some 22, some 24]).map
      ProbResult.prob_operational = .ok (11 / 12 * 100) := by
  have h1 : List.countP (fun v => decide (v < 2))
      [(2 : ℚ), 4, 6, 8, 10, 12, 14, 16, 18, 20, 22, 24] = 0 := by decide
  have h2 : List.countP (fun v => decide (cut_in_speed ≤ v) && decide (v ≤ cut_out_speed))
      [(2 : ℚ), 4, 6, 8, 10, 12, 14, 16, 18, 20, 22, 24] = 11 := by decide
  constructor
  · show Except.ok (pct [(2 : ℚ), 4, 6, 8, 10, 12, 14, 16, 18, 20, 22, 24]
      (fun v => decide (v < 2))) = _
    rw [pct, h1]
    norm_num
  · show Except.ok (pct [(2 : ℚ), 4, 6, 8, 10, 12, 14, 16, 18, 20, 22, 24]
      (fun v => decide (cut_in_speed ≤ v) && decide (v ≤ cut_out_speed))) = _
    rw [pct, h2]
    norm_num

/-- C6: for every series that cleans to a non-empty list and every positive
air density, the reported total energy density equals the reported mean
power density — both are the arithmetic mean of the per-sample densities,
not a time integral. -/
theorem total_energy_density_eq_mean (ws : List RawSample) (ρ : ℚ)
    (hρ : 0 < ρ) (h : cleanNonneg ws ≠ []) :
    ∃ r, calculate_power_density ws (some ρ) = .ok r ∧
      r.total_energy_density = r.mean_power_density := by
  match hc : cleanNonneg ws with
  | [] => exact absurd hc h
  | v :: vs =>
    unfold calculate_power_density
    rw [hc]
    exact ⟨_, rfl, rfl⟩

/-- Witness for C6 at the one-sample series [5] with air density 1. -/
theorem total_energy_density_eq_mean_witness :
    ∃ r, calculate_power_density [some 5] (some 1) = .ok r ∧
      r.total_energy_density = r.mean_power_density :=
  total_energy_density_eq_mean [some 5] 1 (by norm_num) (by decide)

/-- C8: appending a NaN or negative sample to a series leaves the whole
capacity-factor result unchanged, for any optional power curve, because
cleaning removes NaN and negative samples before any computation. -/
theorem capacity_factor_ignores_invalid_append (ws : List RawSample)
    (x : RawSample) (curve : Option (List (ℚ × ℚ)))
    (hx : x = none ∨ ∃ v, x = some v ∧ v < 0) :
    calculate_capacity_factor (ws ++ [x]) curve = calculate_capacity_factor ws curve := by
  have hclean : cleanNonneg (ws ++ [x]) = cleanNonneg ws := by
    unfold cleanNonneg
    rcases hx with h | ⟨v, hv, hneg⟩
    · subst h
      simp [List.filterMap_append]
    · subst hv
      simp [List.filterMap_append, List.filter_append, not_le.2 hneg]
  unfold calculate_capacity_factor
  rw [hclean]

/-- Witness for C8: appending the negative sample -1 to the series [5]. -/
theorem capacity_factor_ignores_invalid_append_witness :
    calculate_capacity_factor [some 5, some (-1)] none =
      calculate_capacity_factor [some 5] none :=
  capacity_factor_ignores_invalid_append [some 5] (some (-1)) none
    (Or.inr ⟨-1, rfl, by norm_num⟩)

/-- C9: the Weibull fitter reports the explicit insufficient-data error
exactly when, after dropping NaN and all values ≤ 0, fewer than 10 samples
remain; with 10 or more strictly positive samples it runs the
maximum-likelihood fit on the cleaned series. -/
theorem weibull_insufficient_iff (α : Type)
    (weibull_mle : List ℚ → Except String α) (ws : List RawSample) :
    (fit_weibull_distribution weibull_mle ws = .error .insufficientData ↔
      (cleanPos ws).length < 10) ∧
    (10 ≤ (cleanPos ws).length →
      fit_weibull_distribution weibull_mle ws =
        (weibull_mle (cleanPos ws)).mapError WeibullErr.fitError) := by
  unfold fit_weibull_distribution
  by_cases h : (cleanPos ws).length < 10
  · refine ⟨by simp [h], fun h10 => absurd h (by omega)⟩
  · rw [if_neg h]
    constructor
    · cases hm : weibull_mle (cleanPos ws) <;> simp [h]
    · intro _
      cases hm : weibull_mle (cleanPos ws) <;> simp [Except.mapError]

/-- Witness for C9: ten strictly positive samples reach the fit routine. -/
theorem weibull_insufficient_iff_witness :
    fit_weibull_distribution (fun _ => Except.ok ()) (List.replicate 10 (some (1 : ℚ))) =
      Except.ok () :=
  (weibull_insufficient_iff Unit (fun _ => Except.ok ())
    (List.replicate 10 (some 1))).2 (by decide)

/-- C2: with every consulted component successful, the viability score is the
sum of the five independently evaluated rule tiers (each threshold an
inclusive lower bound, witnessed by the boundary values) clamped afterward to
[0, 100], and hence always lies in [0, 100]. -/
theorem viability_score_clamped_tier_sum (α : Type) (w : Except WeibullErr α)
    (s : StatsResult) (o : TIEntry) (ts : List (String × TIEntry))
    (p : PowerDensityResult) (pr : ProbResult) (c : CapacityFactorResult) :
    (_overall_wind_assessment (.ok s) w (.ok (("overall", o) :: ts)) (.ok p) (.ok pr)
        (.ok c)).viability_score =
      max 0 (min 100 (speedScore s.mean + powerDensityScore p.mean_power_density +
        capacityScore c.capacity_factor + turbulenceScore o.turbulence_intensity +
        operationalScore pr.prob_operational)) ∧
    0 ≤ (_overall_wind_assessment (.ok s) w (.ok (("overall", o) :: ts)) (.ok p) (.ok pr)
        (.ok c)).viability_score ∧
    (_overall_wind_assessment (.ok s) w (.ok (("overall", o) :: ts)) (.ok p) (.ok pr)
        (.ok c)).viability_score ≤ 100 ∧
    speedScore 8 = 30 ∧ powerDensityScore 400 = 25 ∧ capacityScore 40 = 25 ∧
    turbulenceScore 0.15 = 10 ∧ operationalScore 80 = 10 := by
  have hred : (_overall_wind_assessment (.ok s) w (.ok (("overall", o) :: ts)) (.ok p)
      (.ok pr) (.ok c)).viability_score =
      max 0 (min 100 (speedScore s.mean + powerDensityScore p.mean_power_density +
        capacityScore c.capacity_factor + turbulenceScore o.turbulence_intensity +
        operationalScore pr.prob_operational)) := rfl
  refine ⟨hred, ?_, ?_, ?_, ?_, ?_, ?_, ?_⟩
  · rw [hred]
    exact le_max_left 0 _
  · rw [hred]
    exact max_le (by norm_num) (min_le_left _ _)
  · norm_num [speedScore]
  · norm_num [powerDensityScore]
  · norm_num [capacityScore]
  · norm_num [turbulenceScore]
  · norm_num [operationalScore]

/-- A component result that is the error marker. -/
def isErrorResult {ε α : Type} (r : Except ε α) : Prop := ∃ e, r = .error e

/-- C1 (amended): if any of the five components the scorer actually consults
(statistics, turbulence, power density, probabilities, capacity factor)
reported an error, the overall assessment carries an aggregate error, while
retaining the initialization values: score 0, level Bajo, empty key
metrics. -/
theorem assessment_error_on_component_failure (α : Type)
    (bs : Except String StatsResult) (w : Except WeibullErr α)
    (tb : Except String (List (String × TIEntry)))
    (pd : Except String PowerDensityResult) (pr : Except String ProbResult)
    (cf : Except String CapacityFactorResult)
    (h : isErrorResult bs ∨ isErrorResult tb ∨ isErrorResult pd ∨ isErrorResult pr ∨
      isErrorResult cf) :
    ((_overall_wind_assessment bs w tb pd pr cf).error).isSome ∧
    (_overall_wind_assessment bs w tb pd pr cf).viability_score = 0 ∧
    (_overall_wind_assessment bs w tb pd pr cf).viability_level = "Bajo" ∧
    (_overall_wind_assessment bs w tb pd pr cf).key_metrics = none := by
  unfold _overall_wind_assessment
  rcases bs with e | s
  · simp [getField, assessmentError]
  · rcases pd with e | p
    · simp [getField, assessmentError]
    · rcases cf with e | c
      · simp [getField, assessmentError]
      · rcases tb with e | t
        · simp [getField, assessmentError]
        · rcases pr with e | prr
          · rcases hl : t.lookup "overall" with _ | o <;>
              simp [getField, assessmentError, hl]
          · exfalso
            rcases h with ⟨e, he⟩ | ⟨e, he⟩ | ⟨e, he⟩ | ⟨e, he⟩ | ⟨e, he⟩ <;>
              exact Except.noConfusion he

/-- Witness for the amended C1 at the component errors produced by the empty
series: every consulted component fails, the aggregate error is set, and the
score keeps its initialization value 0. -/
theorem assessment_error_on_component_failure_witness :
    ((_overall_wind_assessment (Except.error "No hay datos válidos de velocidad del viento")
        (Except.error WeibullErr.insufficientData : Except WeibullErr Unit)
        (Except.error "Datos insuficientes para cálculo de turbulencia")
        (Except.error "No hay datos válidos de velocidad del viento")
        (Except.error "No hay datos válidos de velocidad del viento")
        (Except.error "No hay datos válidos de velocidad del viento")).error).isSome ∧
    (_overall_wind_assessment (Except.error "No hay datos válidos de velocidad del viento")
        (Except.error WeibullErr.insufficientData : Except WeibullErr Unit)
        (Except.error "Datos insuficientes para cálculo de turbulencia")
        (Except.error "No hay datos válidos de velocidad del viento")
        (Except.error "No hay datos válidos de velocidad del viento")
        (Except.error "No hay datos válidos de velocidad del viento")).viability_score = 0 ∧
    (_overall_wind_assessment (Except.error "No hay datos válidos de velocidad del viento")
        (Except.error WeibullErr.insufficientData : Except WeibullErr Unit)
        (Except.error "Datos insuficientes para cálculo de turbulencia")
        (Except.error "No hay datos válidos de velocidad del viento")
        (Except.error "No hay datos válidos de velocidad del viento")
        (Except.error "No hay datos válidos de velocidad del viento")).viability_level = "Bajo" ∧
    (_overall_wind_assessment (Except.error "No hay datos válidos de velocidad del viento")
        (Except.error WeibullErr.insufficientData : Except WeibullErr Unit)
        (Except.error "Datos insuficientes para cálculo de turbulencia")
        (Except.error "No hay datos válidos de velocidad del viento")
        (Except.error "No hay datos válidos de velocidad del viento")
        (Except.error "No hay datos válidos de velocidad del viento")).key_metrics = none :=
  assessment_error_on_component_failure Unit
    (Except.error "No hay datos válidos de velocidad del viento")
    (Except.error WeibullErr.insufficientData)
    (Except.error "Datos insuficientes para cálculo de turbulencia")
    (Except.error "No hay datos válidos de velocidad del viento")
    (Except.error "No hay datos válidos de velocidad del viento")
    (Except.error "No hay datos válidos de velocidad del viento")
    (Or.inl ⟨_, rfl⟩)

/-- Concrete successful statistics record used to refute C1 as stated. -/
def statsOkZ : StatsResult := ⟨7, 7, 0, 7, 7, 7, 7, 7, 7, 20, 100⟩

/-- Concrete successful overall-turbulence entry used to refute C1. -/
def tiOkZ : TIEntry := ⟨0, 7, 0, none, "Muy baja"⟩

/-- Concrete successful power-density record used to refute C1. -/
def pdOkZ : PowerDensityResult := ⟨350, 350, 350, 350, 1.225, "Bueno"⟩

/-- Concrete successful probability record used to refute C1. -/
def probOkZ : ProbResult := ⟨40, 90, 85, 10, 0, 5, 1⟩

/-- Concrete successful capacity-factor record used to refute C1. -/
def cfOkZ : CapacityFactorResult := ⟨35, 700, 2000, 6132000, "Bueno"⟩

/-- C1 is false as stated: the scorer never reads the Weibull result, so with
the Weibull fitter failed and the other five components successful the
assessment carries no aggregate error and reports a genuine score (80
here). -/
theorem weibull_error_not_surfaced :
    (_overall_wind_assessment (.ok statsOkZ)
        (Except.error (WeibullErr.fitError "fit degenerado") : Except WeibullErr Unit)
        (.ok [("overall", tiOkZ)]) (.ok pdOkZ) (.ok probOkZ) (.ok cfOkZ)).error = none ∧
    (_overall_wind_assessment (.ok statsOkZ)
        (Except.error (WeibullErr.fitError "fit degenerado") : Except WeibullErr Unit)
        (.ok [("overall", tiOkZ)]) (.ok pdOkZ) (.ok probOkZ) (.ok cfOkZ)).viability_score
      = 80 := by
  constructor
  · rfl
  · have hred : (_overall_wind_assessment (.ok statsOkZ)
        (Except.error (WeibullErr.fitError "fit degenerado") : Except WeibullErr Unit)
        (.ok [("overall", tiOkZ)]) (.ok pdOkZ) (.ok probOkZ) (.ok cfOkZ)).viability_score =
        max 0 (min 100 (speedScore statsOkZ.mean +
          powerDensityScore pdOkZ.mean_power_density + capacityScore cfOkZ.capacity_factor +
          turbulenceScore tiOkZ.turbulence_intensity +
          operationalScore probOkZ.prob_operational)) := rfl
    rw [hred]
    norm_num [statsOkZ, pdOkZ, cfOkZ, tiOkZ, probOkZ, speedScore, powerDensityScore,
      capacityScore, turbulenceScore, operationalScore]

/-- Mean of a constant list is that constant. -/
lemma qmean_const (n : ℕ) (x : ℚ) : qmean (x :: List.replicate n x) = x := by
  rw [qmean]
  simp [List.sum_replicate, nsmul_eq_mul]
  field_simp
  ring

/-- Population variance of a constant list is zero. -/
lemma qvariance_const (n : ℕ) (x : ℚ) : qvariance (x :: List.replicate n x) = 0 := by
  rw [qvariance, qmean_const]
  simp [List.map_replicate]
  simpa using qmean_const n 0

/-- Population standard deviation of a constant list is zero. -/
lemma qstd_const (n : ℕ) (x : ℚ) : qstd (x :: List.replicate n x) = 0 := by
  rw [qstd, qvariance_const]
  simp

/-- Turbulence intensity of a constant positive list is zero. -/
lemma tiOf_const_pos (n : ℕ) (x : ℚ) (hx : 0 < x) :
    tiOf (x :: List.replicate n x) = 0 := by
  rw [tiOf, qmean_const, qstd_const, if_pos hx]
  simp

/-- C4: on the constant series of twenty samples of 5.0 m/s, the statistics
report mean 5 and standard deviation 0; the turbulence analysis reports
overall TI 0 classified "Muy baja"; and the capacity-factor estimator with
the default curve produces output power 150 kW for every sample, hence mean
power 150 kW and capacity factor 150/2000 × 100 = 7.5%. -/
theorem constant_series_scenario :
    (calculate_wind_statistics (List.replicate 20 (some 5))).map StatsResult.mean = .ok 5 ∧
    (calculate_wind_statistics (List.replicate 20 (some 5))).map StatsResult.std = .ok 0 ∧
    ((calculate_turbulence_intensity (List.replicate 20 (some 5))).toOption.bind
        (List.lookup "overall")).map TIEntry.turbulence_intensity = some 0 ∧
    ((calculate_turbulence_intensity (List.replicate 20 (some 5))).toOption.bind
        (List.lookup "overall")).map TIEntry.classification = some "Muy baja" ∧
    (cleanNonneg (List.replicate 20 (some 5))).map
        (fun s => (_interpolate_power s _default_power_curve).getD 0) =
      List.replicate 20 150 ∧
    (calculate_capacity_factor (List.replicate 20 (some 5)) none).map
        CapacityFactorResult.mean_power_output = .ok 150 ∧
    (calculate_capacity_factor (List.replicate 20 (some 5)) none).map
        CapacityFactorResult.capacity_factor = .ok (150 / 2000 * 100) := by
  have h5 : cleanNonneg (List.replicate 20 (some 5)) = (5 : ℚ) :: List.replicate 19 5 := by
    decide
  have hpos : cleanPos (List.replicate 20 (some 5)) = (5 : ℚ) :: List.replicate 19 5 := by
    decide
  have hmean := qmean_const 19 (5 : ℚ)
  have hstd := qstd_const 19 (5 : ℚ)
  have hti := tiOf_const_pos 19 (5 : ℚ) (by norm_num)
  have hclass : classify_turbulence 0 = "Muy baja" := by
    rw [classify_turbulence]
    norm_num
  have hinterp : _interpolate_power 5 _default_power_curve =
      some (50 + (150 - 50) * ((5 : ℚ) - 4) / (5 - 4)) := rfl
  have hinterp150 : _interpolate_power 5 _default_power_curve = some 150 := by
    rw [hinterp]
    norm_num
  refine ⟨?_, ?_, ?_, ?_, ?_, ?_, ?_⟩
  · unfold calculate_wind_statistics
    rw [h5]
    show Except.ok (qmean ((5 : ℚ) :: List.replicate 19 5)) = _
    rw [hmean]
  · unfold calculate_wind_statistics
    rw [h5]
    show Except.ok (qstd ((5 : ℚ) :: List.replicate 19 5)) = _
    rw [hstd]
  · unfold calculate_turbulence_intensity
    rw [hpos]
    show some (tiOf ((5 : ℚ) :: List.replicate 19 5)) = _
    rw [hti]
  · unfold calculate_turbulence_intensity
    rw [hpos]
    show some (classify_turbulence (tiOf ((5 : ℚ) :: List.replicate 19 5))) = _
    rw [hti, hclass]
  · rw [h5]
    simp only [List.map_cons, List.map_replicate, hinterp150, Option.getD_some]
    rfl
  · unfold calculate_capacity_factor
    rw [h5]
    show Except.ok (qmean (((5 : ℚ) :: List.replicate 19 5).map
      (fun s => (_interpolate_power s _default_power_curve).getD 0))) = _
    simp only [List.map_cons, List.map_replicate, hinterp150, Option.getD_some]
    rw [qmean_const]
  · unfold calculate_capacity_factor
    rw [h5]
    show Except.ok (qmean (((5 : ℚ) :: List.replicate 19 5).map
      (fun s => (_interpolate_power s _default_power_curve).getD 0)) / 2000 * 100) = _
    simp only [List.map_cons, List.map_replicate, hinterp150, Option.getD_some]
    rw [qmean_const]

/-- The clamped last element of a non-empty list is one of its elements. -/
lemma getLastD_mem_cons : ∀ (l : List ℚ) (x d : ℚ), (x :: l).getLastD d ∈ x :: l := by
  intro l
  induction l with
  | nil =>
    intro x d
    simp [List.getLastD]
  | cons y t ih =>
    intro x d
    rw [List.getLastD_cons]
    exact List.mem_cons_of_mem x (ih y x)

/-- In a sorted list every element is at most the last element. -/
lemma sorted_le_getLastD : ∀ (l : List ℚ) (x : ℚ), (x :: l).Sorted (· ≤ ·) →
    ∀ a ∈ x :: l, a ≤ (x :: l).getLastD 0 := by
  intro l
  induction l with
  | nil =>
    intro x _ a ha
    rw [List.mem_singleton] at ha
    simp [ha, List.getLastD]
  | cons y t ih =>
    intro x hs a ha
    have hdef : (x :: y :: t).getLastD 0 = (y :: t).getLastD 0 := by
      simp [List.getLastD_cons]
    rw [hdef]
    rcases List.mem_cons.1 ha with rfl | ha2
    · exact le_trans (List.rel_of_sorted_cons hs y (List.mem_cons_self y t))
        (ih y (List.sorted_cons.1 hs).2 y (List.mem_cons_self y t))
    · exact ih y (List.sorted_cons.1 hs).2 a ha2

/-- The interpolation loop finds a bracketing pair of consecutive keys as
soon as the speed lies between the first key and the last key, and returns
the linear interpolation on that pair (so the trailing fallback is never
used). -/
lemma interpLoop_bracket (speed : ℚ) (power_curve : List (ℚ × ℚ)) :
    ∀ (rest : List ℚ) (x y : ℚ), x ≤ speed → speed ≤ (x :: y :: rest).getLastD 0 →
    ∃ pre x1 x2 post, x :: y :: rest = pre ++ x1 :: x2 :: post ∧ x1 ≤ speed ∧ speed ≤ x2 ∧
      interpLoop speed power_curve (x :: y :: rest) =
        some (curveVal power_curve x1 +
          (curveVal power_curve x2 - curveVal power_curve x1) * (speed - x1) / (x2 - x1)) := by
  intro rest
  induction rest with
  | nil =>
    intro x y hx hy
    have hy2 : speed ≤ y := by
      rw [List.getLastD_cons] at hy
      simpa [List.getLastD] using hy
    refine ⟨[], x, y, [], rfl, hx, hy2, ?_⟩
    simp only [interpLoop]
    rw [if_pos ⟨hx, hy2⟩]
  | cons z t ih =>
    intro x y hx hy
    by_cases hxy : speed ≤ y
    · refine ⟨[], x, y, z :: t, rfl, hx, hxy, ?_⟩
      simp only [interpLoop]
      rw [if_pos ⟨hx, hxy⟩]
    · have hy2 : y ≤ speed := le_of_not_le hxy
      have hy3 : speed ≤ (y :: z :: t).getLastD 0 := by
        have heq : (x :: y :: z :: t).getLastD 0 = (y :: z :: t).getLastD 0 := by
          simp [List.getLastD_cons]
        rw [← heq]
        exact hy
      obtain ⟨pre, x1, x2, post, heq, h1, h2, h3⟩ := ih y z hy2 hy3
      refine ⟨x :: pre, x1, x2, post, ?_, h1, h2, ?_⟩
      · rw [List.cons_append, ← heq]
      · simp only [interpLoop]
        rw [if_neg (fun hc => hxy hc.2)]
        exact h3

/-- Unfolding of `_interpolate_power` once the sorted key list is known to
be non-empty. -/
lemma interpolate_power_eq_cons (power_curve : List (ℚ × ℚ)) (speed s0 : ℚ)
    (rest : List ℚ) (hs : sortedSpeeds power_curve = s0 :: rest) :
    _interpolate_power speed power_curve =
      if speed ≤ s0 then some (curveVal power_curve s0)
      else if (s0 :: rest).getLastD 0 ≤ speed then
        some (curveVal power_curve ((s0 :: rest).getLastD 0))
      else some ((interpLoop speed power_curve (s0 :: rest)).getD 0) := by
  unfold _interpolate_power
  rw [hs]

/-- C10: for every finite speed and every power curve with at least one
knot, `_interpolate_power` returns a value (never the IndexError case), and
whenever neither boundary clamp applies the interpolation loop itself finds
a bracketing pair, so the trailing fallback `return 0` is unreachable. -/
theorem interpolate_power_no_fallback (power_curve : List (ℚ × ℚ)) (speed : ℚ)
    (hne : power_curve ≠ []) :
    (_interpolate_power speed power_curve).isSome ∧
    ∀ s0 rest, sortedSpeeds power_curve = s0 :: rest → ¬ speed ≤ s0 →
      ¬ (s0 :: rest).getLastD 0 ≤ speed →
      (interpLoop speed power_curve (s0 :: rest)).isSome ∧
      _interpolate_power speed power_curve = interpLoop speed power_curve (s0 :: rest) := by
  have hsne : sortedSpeeds power_curve ≠ [] := by
    unfold sortedSpeeds
    intro hc
    apply hne
    have hlen := congrArg List.length hc
    rw [List.length_insertionSort, List.length_map] at hlen
    exact List.length_eq_zero.1 hlen
  constructor
  · cases hs : sortedSpeeds power_curve with
    | nil => exact absurd hs hsne
    | cons s0 rest =>
      rw [interpolate_power_eq_cons power_curve speed s0 rest hs]
      by_cases h1 : speed ≤ s0
      · rw [if_pos h1]
        rfl
      · rw [if_neg h1]
        by_cases h2 : (s0 :: rest).getLastD 0 ≤ speed
        · rw [if_pos h2]
          rfl
        · rw [if_neg h2]
          rfl
  · intro s0 rest hs h1 h2
    cases rest with
    | nil =>
      exfalso
      rcases le_total speed s0 with h | h
      · exact h1 h
      · exact h2 h
    | cons y t =>
      obtain ⟨pre, x1, x2, post, heq, hb1, hb2, h3⟩ :=
        interpLoop_bracket speed power_curve t s0 y (le_of_not_le h1) (le_of_not_le h2)
      constructor
      · rw [h3]
        rfl
      · rw [interpolate_power_eq_cons power_curve speed s0 (y :: t) hs,
          if_neg h1, if_neg h2, h3]
        rfl

/-- Witness for C10 on a three-knot curve with the speed strictly between
the outer knots. -/
theorem interpolate_power_no_fallback_witness :
    (_interpolate_power 3 [((0 : ℚ), (0 : ℚ)), (5, 150), (10, 1300)]).isSome ∧
    (interpLoop 3 [((0 : ℚ), (0 : ℚ)), (5, 150), (10, 1300)] [0, 5, 10]).isSome ∧
    _interpolate_power 3 [((0 : ℚ), (0 : ℚ)), (5, 150), (10, 1300)] =
      interpLoop 3 [((0 : ℚ), (0 : ℚ)), (5, 150), (10, 1300)] [0, 5, 10] := by
  have h := interpolate_power_no_fallback [((0 : ℚ), (0 : ℚ)), (5, 150), (10, 1300)] 3
    (by decide)
  have h2 := h.2 0 [5, 10] (by decide) (by decide) (by decide)
  exact ⟨h.1, h2.1, h2.2⟩

/-- C3: with the sorted key list `s0 :: rest`, a speed at or below the
lowest key yields exactly the power at the lowest key (which is a lower
bound of all keys); a speed at or above the highest key yields exactly the
power at the highest key (an upper bound of all keys); and an interior
speed is linearly interpolated between two consecutive keys of the sorted
key list that bracket it. -/
theorem interpolate_power_clamps_and_interpolates (power_curve : List (ℚ × ℚ))
    (speed s0 : ℚ) (rest : List ℚ) (hs : sortedSpeeds power_curve = s0 :: rest) :
    (speed ≤ s0 →
      _interpolate_power speed power_curve = some (curveVal power_curve s0) ∧
      ∀ k ∈ power_curve.map Prod.fst, s0 ≤ k) ∧
    ((s0 :: rest).getLastD 0 ≤ speed →
      _interpolate_power speed power_curve =
        some (curveVal power_curve ((s0 :: rest).getLastD 0)) ∧
      ∀ k ∈ power_curve.map Prod.fst, k ≤ (s0 :: rest).getLastD 0) ∧
    (¬ speed ≤ s0 → ¬ (s0 :: rest).getLastD 0 ≤ speed →
      ∃ pre x1 x2 post, s0 :: rest = pre ++ x1 :: x2 :: post ∧ x1 ≤ speed ∧ speed ≤ x2 ∧
        _interpolate_power speed power_curve =
          some (curveVal power_curve x1 +
            (curveVal power_curve x2 - curveVal power_curve x1) * (speed - x1) /
              (x2 - x1))) := by
  have hsorted : (s0 :: rest).Sorted (· ≤ ·) := by
    rw [← hs]
    exact List.sorted_insertionSort _ _
  have hmem : ∀ k ∈ power_curve.map Prod.fst, k ∈ s0 :: rest := by
    intro k hk
    rw [← hs]
    exact (List.mem_insertionSort _).2 hk
  refine ⟨?_, ?_, ?_⟩
  · intro h
    refine ⟨?_, ?_⟩
    · rw [interpolate_power_eq_cons power_curve speed s0 rest hs, if_pos h]
    · intro k hk
      rcases List.mem_cons.1 (hmem k hk) with rfl | hk2
      · exact le_refl k
      · exact List.rel_of_sorted_cons hsorted k hk2
  · intro h
    refine ⟨?_, ?_⟩
    · rw [interpolate_power_eq_cons power_curve speed s0 rest hs]
      by_cases h1 : speed ≤ s0
      · rw [if_pos h1]
        have hs0le : s0 ≤ (s0 :: rest).getLastD 0 :=
          sorted_le_getLastD rest s0 hsorted s0 (List.mem_cons_self s0 rest)
        have heq : s0 = (s0 :: rest).getLastD 0 := le_antisymm hs0le (le_trans h h1)
        rw [← heq]
      · rw [if_neg h1, if_pos h]
    · intro k hk
      exact sorted_le_getLastD rest s0 hsorted k (hmem k hk)
  · intro h1 h2
    cases rest with
    | nil =>
      exfalso
      rcases le_total speed s0 with h | h
      · exact h1 h
      · exact h2 h
    | cons y t =>
      obtain ⟨pre, x1, x2, post, heq, hb1, hb2, h3⟩ :=
        interpLoop_bracket speed power_curve t s0 y (le_of_not_le h1) (le_of_not_le h2)
      refine ⟨pre, x1, x2, post, heq, hb1, hb2, ?_⟩
      rw [interpolate_power_eq_cons power_curve speed s0 (y :: t) hs,
        if_neg h1, if_neg h2, h3]
      rfl

/-- Witness for C3: on a three-knot curve, a speed below the lowest knot is
clamped to the lowest knot power, which bounds all keys from below. -/
theorem interpolate_power_clamps_witness :
    _interpolate_power (-1) [((0 : ℚ), (0 : ℚ)), (5, 150), (10, 1300)] =
      some (curveVal [((0 : ℚ), (0 : ℚ)), (5, 150), (10, 1300)] 0) ∧
    ∀ k ∈ ([((0 : ℚ), (0 : ℚ)), (5, 150), (10, 1300)].map Prod.fst), (0 : ℚ) ≤ k :=
  (interpolate_power_clamps_and_interpolates [((0 : ℚ), (0 : ℚ)), (5, 150), (10, 1300)]
    (-1) 0 [5, 10] (by decide)).1 (by norm_num)

/-- Keys contributed by the speed bins are exactly the labels of the bins
holding more than 5 samples, in bin order. -/
lemma map_fst_filterMap_binEntry (valid : List ℚ) (bins : List (ℕ × ℕ)) :
    (bins.filterMap (binEntry valid)).map Prod.fst =
      (bins.filter (fun b => decide (5 < (binSpeeds valid b).length))).map binLabel := by
  induction bins with
  | nil => rfl
  | cons b t ih =>
    by_cases h : 5 < (binSpeeds valid b).length
    · simp [List.filterMap_cons, List.filter_cons, binEntry, h, ih]
    · simp [List.filterMap_cons, List.filter_cons, binEntry, h, ih]

/-- Looking up the label of a qualifying bin in the filterMap of bin entries
returns the entry of that bin, provided labels are injective on the bin list. -/
lemma lookup_filterMap_binEntry (valid : List ℚ) (bins : List (ℕ × ℕ)) :
    ∀ b ∈ bins,
      (∀ b1 ∈ bins, ∀ b2 ∈ bins, binLabel b1 = binLabel b2 → b1 = b2) →
      5 < (binSpeeds valid b).length →
      (bins.filterMap (binEntry valid)).lookup (binLabel b) =
        some (binTIEntry valid b) := by
  induction bins with
  | nil =>
    intro b hb
    exact absurd hb (List.not_mem_nil b)
  | cons c t ih =>
    intro b hb hinj hcount
    rw [List.filterMap_cons]
    by_cases hbc : b = c
    · subst hbc
      rw [binEntry, if_pos hcount]
      simp [List.lookup]
    · have hbt : b ∈ t := (List.mem_cons.1 hb).resolve_left hbc
      have hinj2 : ∀ b1 ∈ t, ∀ b2 ∈ t, binLabel b1 = binLabel b2 → b1 = b2 :=
        fun b1 h1 b2 h2 => hinj b1 (List.mem_cons_of_mem c h1) b2 (List.mem_cons_of_mem c h2)
      have hlab : binLabel b ≠ binLabel c :=
        fun hl => hbc (hinj b hb c (List.mem_cons_self c t) hl)
      cases hE : binEntry valid c with
      | none => exact ih b hbt hinj2 hcount
      | some pe =>
        rw [binEntry] at hE
        by_cases hc5 : 5 < (binSpeeds valid c).length
        · rw [if_pos hc5] at hE
          injection hE with hpe
          subst hpe
          have hbeq : (binLabel b == binLabel c) = false := beq_eq_false_iff_ne.2 hlab
          simp only [List.lookup, hbeq]
          exact ih b hbt hinj2 hcount
        · rw [if_neg hc5] at hE
          exact Option.noConfusion hE

/-- C5 (amended): for every series with at least 10 valid positive samples
the turbulence analysis succeeds; its keys are exactly `overall` followed by
the labels of the bins holding strictly more than 5 samples (bins with 5 or
fewer are omitted, never zero-filled); the `overall` entry carries TI, mean,
std and classification but no count; each included bin entry carries its
sample count. -/
theorem turbulence_output_structure (ws : List RawSample)
    (h : 10 ≤ (cleanPos ws).length) :
    ∃ entries, calculate_turbulence_intensity ws = .ok entries ∧
      entries.lookup "overall" = some
        { turbulence_intensity := tiOf (cleanPos ws)
          mean_speed := qmean (cleanPos ws)
          std_speed := qstd (cleanPos ws)
          count := none
          classification := classify_turbulence (tiOf (cleanPos ws)) } ∧
      entries.map Prod.fst = "overall" ::
        (speedBins.filter
          (fun b => decide (5 < (binSpeeds (cleanPos ws) b).length))).map binLabel ∧
      ∀ b ∈ speedBins, 5 < (binSpeeds (cleanPos ws) b).length →
        entries.lookup (binLabel b) = some (binTIEntry (cleanPos ws) b) := by
  have hnl : ¬ (cleanPos ws).length < 10 := not_lt.2 h
  have hinj : ∀ b1 ∈ speedBins, ∀ b2 ∈ speedBins, binLabel b1 = binLabel b2 → b1 = b2 := by
    decide
  have hnoto : ∀ b ∈ speedBins, binLabel b ≠ "overall" := by decide
  refine ⟨("overall",
    { turbulence_intensity := tiOf (cleanPos ws)
      mean_speed := qmean (cleanPos ws)
      std_speed := qstd (cleanPos ws)
      count := none
      classification := classify_turbulence (tiOf (cleanPos ws)) }) ::
    speedBins.filterMap (binEntry (cleanPos ws)), ?_, ?_, ?_, ?_⟩
  · unfold calculate_turbulence_intensity
    rw [if_neg hnl]
  · simp [List.lookup]
  · rw [List.map_cons, map_fst_filterMap_binEntry]
  · intro b hb hcount
    have hbeq : (binLabel b == "overall") = false := beq_eq_false_iff_ne.2 (hnoto b hb)
    simp only [List.lookup, hbeq]
    exact lookup_filterMap_binEntry (cleanPos ws) speedBins b hb hinj hcount

/-- Witness for the amended C5: twelve samples of 7 m/s; the 6-9 m/s bin
holds all twelve samples and is the only included bin. -/
theorem turbulence_output_structure_witness :
    ∃ entries,
      calculate_turbulence_intensity (List.replicate 12 (some 7)) = .ok entries ∧
      entries.lookup "overall" = some
        { turbulence_intensity := tiOf (cleanPos (List.replicate 12 (some 7)))
          mean_speed := qmean (cleanPos (List.replicate 12 (some 7)))
          std_speed := qstd (cleanPos (List.replicate 12 (some 7)))
          count := none
          classification :=
            classify_turbulence (tiOf (cleanPos (List.replicate 12 (some 7)))) } ∧
      entries.map Prod.fst = "overall" ::
        (speedBins.filter (fun b =>
          decide (5 < (binSpeeds (cleanPos (List.replicate 12 (some 7))) b).length))).map
          binLabel ∧
      ∀ b ∈ speedBins,
        5 < (binSpeeds (cleanPos (List.replicate 12 (some 7))) b).length →
        entries.lookup (binLabel b) =
          some (binTIEntry (cleanPos (List.replicate 12 (some 7))) b) :=
  turbulence_output_structure (List.replicate 12 (some 7)) (by decide)

/-- C5 is false as stated: on ten samples of 4 m/s (at least 10 valid
positive samples) the `overall` entry of the turbulence output has no count
field, so the overall record does not contain all five of TI, mean, std,
count, classification. -/
theorem overall_entry_lacks_count :
    ((calculate_turbulence_intensity (List.replicate 10 (some 4))).toOption.bind
      (List.lookup "overall")).map TIEntry.count = some none := by
  have hpos : cleanPos (List.replicate 10 (some 4)) = (4 : ℚ) :: List.replicate 9 4 := by
    decide
  unfold calculate_turbulence_intensity
  rw [hpos]
  rfl
